import Mathlib

/-!
Shallow embedding of `src/api/mqtt-proxy.js`: a serverless proxy with one
HTTP handler dispatching on an `action` field to either an MQTT publish
(`handlePublish`) or a REST status fetch (`handleGetStatus`).

External facilities (the MQTT client library, `fetch`, `JSON.parse`, the
system clock) are modelled as an explicit `World` of outcomes; the handler
itself is a pure function of the configuration, the world and the request,
returning the HTTP response it sends (if any) together with the trace of
observable side effects (network attempts and `console.error` calls) in
the order they occur.
-/

namespace MqttProxy

/-- JavaScript values, as far as this program manipulates them: request
payloads, parsed JSON, and the `undefined` that a missing field yields. -/
inductive Js where
  | undef
  | null
  | bool (b : Bool)
  | num (n : Int)
  | str (s : String)
  | arr (xs : List Js)
  | obj (kvs : List (String × Js))
  deriving Repr

/-- JavaScript truthiness, as used by `if (data)` on line 38 and the
`!data.value` checks on line 110 of the source. Numbers model only the
integral values the program meets; `0` is falsy like in JS. -/
def Js.truthy : Js → Bool
  | .undef => false
  | .null => false
  | .bool b => b
  | .num n => n != 0
  | .str s => s != ""
  | .arr _ => true
  | .obj _ => true

/-- Minimal JSON string escaping used by the `JSON.stringify` model:
backslash and double quote (control characters do not occur in the
program's fixed keys and are irrelevant to the claims). -/
def jsonEscape (s : String) : String :=
  s.foldl (fun acc c =>
    acc ++ (if c = '"' then "\\\"" else if c = '\\' then "\\\\" else String.singleton c)) ""

mutual

/-- Model of `JSON.stringify`: keys in insertion order, `undefined`-valued
object entries omitted, `undefined` array entries rendered as `null`,
exactly as the JS runtime does. -/
def Js.stringify : Js → String
  | .undef => "undefined"
  | .null => "null"
  | .bool true => "true"
  | .bool false => "false"
  | .num n => toString n
  | .str s => "\"" ++ jsonEscape s ++ "\""
  | .arr xs => "[" ++ String.intercalate "," (Js.stringifyItems xs) ++ "]"
  | .obj kvs => "\x7b" ++ String.intercalate "," (Js.stringifyEntries kvs) ++ "\x7d"

/-- Rendered elements of an array (an `undefined` element becomes `null`). -/
def Js.stringifyItems : List Js → List String
  | [] => []
  | .undef :: xs => "null" :: Js.stringifyItems xs
  | x :: xs => Js.stringify x :: Js.stringifyItems xs

/-- Rendered `"key":value` entries of an object (`undefined` values are
dropped). -/
def Js.stringifyEntries : List (String × Js) → List String
  | [] => []
  | (_, .undef) :: kvs => Js.stringifyEntries kvs
  | (k, v) :: kvs =>
      ("\"" ++ jsonEscape k ++ "\":" ++ Js.stringify v) :: Js.stringifyEntries kvs

end

/-- Process configuration read from the environment at module load
(lines 6-9). `none` models an unset variable; the empty string is a set
but falsy value, which JS treats like unset in every check below. -/
structure Config where
  MQTT_BROKER_HOST : Option String
  MQTT_BROKER_PORT : Option String
  ADAFRUIT_IO_USERNAME : Option String
  ADAFRUIT_IO_KEY : Option String

/-- JS truthiness of an environment variable: set and non-empty. -/
def envTruthy : Option String → Bool
  | none => false
  | some s => s != ""

/-- Evaluation of `x || dflt` on an environment variable (lines 6-7). -/
def envOr (o : Option String) (dflt : String) : String :=
  match o with
  | none => dflt
  | some s => if s = "" then dflt else s

/-- String interpolation of an environment variable in a template literal:
an unset variable prints as "undefined". -/
def envStr : Option String → String
  | none => "undefined"
  | some s => s

/-- Line 12: the control topic, built from the configured username. -/
def TOPIC_CONTROL (cfg : Config) : String :=
  envStr cfg.ADAFRUIT_IO_USERNAME ++ "/feeds/motor_control"

/-- Line 13: the status topic. -/
def TOPIC_STATUS (cfg : Config) : String :=
  envStr cfg.ADAFRUIT_IO_USERNAME ++ "/feeds/esp32_status"

/-- Observable side effects of one invocation, in order of occurrence. -/
inductive Effect where
  | mqttConnect (url : String) (username password : Option String)
  | mqttPublish (topic message : String) (retain : Bool)
  | mqttEnd
  | restGet (url : String) (aioKey : Option String)
  | consoleError (parts : List String)
  deriving DecidableEq, Repr

/-- Behaviour of the MQTT broker connection for one invocation: either the
client's error event fires (connection failure, with the error's message),
or the connect event fires and the publish callback receives `some err`
or no error. -/
inductive MqttOutcome where
  | connectError (msg : String)
  | connected (publishErr : Option String)
  deriving Repr

/-- Parsed JSON body of the upstream REST response, as far as the program
reads it: its `value` field (a string on this API; `none` = absent) and
its `created_at` field. -/
structure RestBody where
  value : Option String
  created_at : Option String
  deriving Repr

/-- Behaviour of the upstream REST endpoint for one invocation:
the HTTP status (`ok` is 200..299, as `response.ok`) and the parsed body
(`none` models a null body). -/
structure RestOutcome where
  status : Nat
  body : Option RestBody
  deriving Repr

/-- The external world one invocation runs against: the MQTT outcome, the
REST outcome, and a `JSON.parse` oracle (`none` = the parse throws). -/
structure World where
  mqtt : MqttOutcome
  rest : RestOutcome
  parse : String → Option Js

/-- The JSON envelope the handler sends: `status` plus at most one of
`details` / `data`. -/
structure Envelope where
  status : String
  details : Option String
  data : Option Js
  deriving Repr

/-- An error envelope with the given details string. -/
def errEnv (d : String) : Envelope := ⟨"error", some d, none⟩

/-- An HTTP response: status code and JSON envelope. -/
structure HttpResponse where
  code : Nat
  body : Envelope
  deriving Repr

/-- Lines 59-89, `handlePublish`: connect, publish on the connect event
(ending the client in the publish callback), or end and reject on the
error event. Returns the promise's outcome and the effect trace. -/
def handlePublish (cfg : Config) (m : MqttOutcome) (topic : String) (payload : Js) :
    Except String Unit × List Effect :=
  let url := "mqtts://" ++ envOr cfg.MQTT_BROKER_HOST "io.adafruit.com" ++ ":"
      ++ envOr cfg.MQTT_BROKER_PORT "8883"
  let conn := Effect.mqttConnect url cfg.ADAFRUIT_IO_USERNAME cfg.ADAFRUIT_IO_KEY
  match m with
  | .connectError msg =>
      (.error ("MQTT connection failed: " ++ msg), [conn, .mqttEnd])
  | .connected publishErr =>
      let messagePayload :=
        Js.stringify (.obj [("command", payload), ("esp_power_on", .bool true)])
      match publishErr with
      | some e =>
          (.error "Failed to publish message.",
           [conn, .mqttPublish topic messagePayload false, .mqttEnd,
            .consoleError ["[MQTT_PUBLISH_ERROR]", e]])
      | none =>
          (.ok (), [conn, .mqttPublish topic messagePayload false, .mqttEnd])

/-- Lines 95-122, `handleGetStatus`: GET the feed's last datum; 404 means
no data (`null`); other non-ok statuses throw; a missing or falsy `value`
yields `null`; otherwise `JSON.parse(value)` is returned, a parse failure
logging the raw value and throwing. Returns the JS value the function
resolves with (or the thrown message) and the effect trace. -/
def handleGetStatus (cfg : Config) (r : RestOutcome) (parse : String → Option Js)
    (topic : String) : Except String Js × List Effect :=
  let feedKey := (topic.splitOn "/").getLastD ""
  let apiUrl := "https://io.adafruit.com/api/v2/" ++ envStr cfg.ADAFRUIT_IO_USERNAME
      ++ "/feeds/" ++ feedKey ++ "/data/last"
  let eff := Effect.restGet apiUrl cfg.ADAFRUIT_IO_KEY
  if 200 ≤ r.status ∧ r.status < 300 then
    match r.body with
    | none => (.ok .null, [eff])
    | some b =>
        match b.value with
        | none => (.ok .null, [eff])
        | some v =>
            if v = "" then (.ok .null, [eff])
            else
              match parse v with
              | some j => (.ok j, [eff])
              | none =>
                  (.error "Received malformed status data from the device.",
                   [eff, .consoleError ["[JSON_PARSE_ERROR]",
                      "Failed to parse device status:", v]])
  else if r.status = 404 then (.ok .null, [eff])
  else (.error ("Adafruit API request failed with status " ++ toString r.status), [eff])

/-- Body of an inbound request: the `action` and `payload` fields
(`action = none` models an absent or non-string action, which compares
unequal to both action literals under strict equality). -/
structure ReqBody where
  action : Option String
  payload : Js

/-- An inbound HTTP request: method and body. `body = none` models a null
or undefined `request.body` (e.g. an empty POST body), whose destructuring
on line 28 throws a TypeError. -/
structure Request where
  method : String
  body : Option ReqBody

/-- Lines 31-46, the try-block: dispatch on `action`. `Except.error`
carries a thrown error's message to the catch on line 47. -/
def route (cfg : Config) (w : World) (b : ReqBody) :
    Except String HttpResponse × List Effect :=
  if b.action = some "send_motor_command" then
    match handlePublish cfg w.mqtt (TOPIC_CONTROL cfg) b.payload with
    | (.ok _, effs) => (.ok ⟨200, ⟨"success", some "Command published.", none⟩⟩, effs)
    | (.error m, effs) => (.error m, effs)
  else if b.action = some "get_device_status" then
    match handleGetStatus cfg w.rest w.parse (TOPIC_STATUS cfg) with
    | (.ok d, effs) =>
        if d.truthy then (.ok ⟨200, ⟨"success", none, some d⟩⟩, effs)
        else
          (.ok ⟨404, errEnv "Status not found. Device may be offline or has not sent data."⟩,
           effs)
    | (.error m, effs) => (.error m, effs)
  else (.ok ⟨400, errEnv "Invalid action specified."⟩, [])

/-- Lines 19-52, the exported handler. Returns the response it sends
(`none` when the invocation throws without responding: the uncaught
TypeError from destructuring a null/undefined `request.body` on line 28,
which sits outside the try-block) together with the effect trace. -/
def handler (cfg : Config) (w : World) (req : Request) :
    Option HttpResponse × List Effect :=
  if req.method ≠ "POST" then
    (some ⟨405, errEnv "Method Not Allowed"⟩, [])
  else if !envTruthy cfg.ADAFRUIT_IO_USERNAME || !envTruthy cfg.ADAFRUIT_IO_KEY then
    (some ⟨500, errEnv "MQTT credentials are not configured on the server."⟩, [])
  else
    match req.body with
    | none => (none, [])
    | some b =>
        match route cfg w b with
        | (.ok resp, effs) => (some resp, effs)
        | (.error m, effs) =>
            (some ⟨500, errEnv m⟩, effs ++ [.consoleError ["[PROXY_ERROR]", m]])

/-! Concrete fixtures for witnesses. -/

/-- A configuration with both credentials set (host/port left to their
defaults). -/
def cfg1 : Config := ⟨none, none, some "alice", some "secretkey"⟩

/-- A world where the MQTT connect event fires and the publish succeeds. -/
def wPubOk : World := ⟨.connected none, ⟨200, none⟩, fun _ => none⟩

/-- A world where the publish callback receives an error. -/
def wPubErr : World := ⟨.connected (some "broker rejected"), ⟨200, none⟩, fun _ => none⟩

/-- A world where the MQTT error event fires. -/
def wConnErr : World := ⟨.connectError "boom", ⟨200, none⟩, fun _ => none⟩

/-- A fixed `JSON.parse` oracle for witnesses, mapping a few strings to
their parses and failing elsewhere. -/
def parseFix : String → Option Js := fun s =>
  if s = "0" then some (.num 0)
  else if s = "false" then some (.bool false)
  else if s = "null" then some .null
  else if s = "statusjson" then some (.obj [("temp", .num 21)])
  else none

/-- A world where the REST call returns 404. -/
def wRest404 : World := ⟨.connected none, ⟨404, none⟩, parseFix⟩

/-- A world where the REST call returns 503. -/
def wRest503 : World := ⟨.connected none, ⟨503, none⟩, parseFix⟩

/-- A world where the REST call succeeds but the feed value does not
parse as JSON. -/
def wMalformed : World := ⟨.connected none, ⟨200, some ⟨some "oops", none⟩⟩, parseFix⟩

/-- A world where the REST value parses to the falsy number 0. -/
def wFalsy : World := ⟨.connected none, ⟨200, some ⟨some "0", none⟩⟩, parseFix⟩

/-- A world where the REST value parses to a truthy object and a
`created_at` timestamp is present. -/
def wGood : World :=
  ⟨.connected none, ⟨200, some ⟨some "statusjson", some "2024-01-01T00:00:00Z"⟩⟩, parseFix⟩

/-- A POST request asking to publish the command "ON". -/
def reqPub : Request := ⟨"POST", some ⟨some "send_motor_command", .str "ON"⟩⟩

/-- A POST request asking for the device status. -/
def reqGet : Request := ⟨"POST", some ⟨some "get_device_status", .undef⟩⟩

/-! Claim theorems. -/

/-- C2: for every invocation of `handlePublish`, the MQTT connection it
opens is closed exactly once — the effect trace contains exactly one
`mqttEnd` — on every exit path: successful publish, publish failure, and
connection failure. -/
theorem C2_connection_closed_exactly_once (cfg : Config) (m : MqttOutcome)
    (topic : String) (payload : Js) :
    ((handlePublish cfg m topic payload).2.count Effect.mqttEnd) = 1 := by
  cases m with
  | connectError msg => rfl
  | connected pe => cases pe <;> rfl

/-- C6: for every POST request with valid credentials whose action is
neither "send_motor_command" nor "get_device_status", the handler responds
400 with the invalid-action error envelope, and the effect trace contains
no MQTT connection attempt and no REST request. -/
theorem C6_invalid_action (cfg : Config) (w : World) (req : Request) (b : ReqBody)
    (hm : req.method = "POST")
    (hu : envTruthy cfg.ADAFRUIT_IO_USERNAME = true)
    (hk : envTruthy cfg.ADAFRUIT_IO_KEY = true)
    (hb : req.body = some b)
    (h1 : b.action ≠ some "send_motor_command")
    (h2 : b.action ≠ some "get_device_status") :
    handler cfg w req = (some ⟨400, errEnv "Invalid action specified."⟩, []) ∧
    (∀ e ∈ (handler cfg w req).2,
      (∀ u a p, e ≠ .mqttConnect u a p) ∧ (∀ u k, e ≠ .restGet u k)) := by
  have hres : handler cfg w req = (some ⟨400, errEnv "Invalid action specified."⟩, []) := by
    simp [handler, hm, hu, hk, hb, route, h1, h2]
  refine ⟨hres, ?_⟩
  rw [hres]
  intro e he
  simp at he

/-- C6 witness at a concrete unrecognized action. -/
theorem C6_invalid_action_witness :
    handler cfg1 wPubOk ⟨"POST", some ⟨some "reboot", .undef⟩⟩
      = (some ⟨400, errEnv "Invalid action specified."⟩, []) :=
  (C6_invalid_action cfg1 wPubOk ⟨"POST", some ⟨some "reboot", .undef⟩⟩
    ⟨some "reboot", .undef⟩ rfl rfl rfl rfl (by decide) (by decide)).1

/-- C7: for every POST request when the configured broker username or key
is falsy (absent or empty), the handler responds 500 with an error
envelope, and the response is the same whatever the request body and
whatever the external world — the body is never examined on this path. -/
theorem C7_missing_credentials (cfg : Config) (w : World) (req : Request)
    (hm : req.method = "POST")
    (hcr : envTruthy cfg.ADAFRUIT_IO_USERNAME = false ∨
           envTruthy cfg.ADAFRUIT_IO_KEY = false) :
    handler cfg w req
      = (some ⟨500, errEnv "MQTT credentials are not configured on the server."⟩, []) ∧
    (∀ b1 b2 w1 w2, handler cfg w1 ⟨"POST", b1⟩ = handler cfg w2 ⟨"POST", b2⟩) := by
  have key : ∀ w0 req0, req0.method = "POST" → handler cfg w0 req0
      = (some ⟨500, errEnv "MQTT credentials are not configured on the server."⟩, []) := by
    intro w0 req0 hm0
    rcases hcr with h | h <;> simp [handler, hm0, h]
  exact ⟨key w req hm, fun b1 b2 w1 w2 => by rw [key w1 ⟨"POST", b1⟩ rfl, key w2 ⟨"POST", b2⟩ rfl]⟩

/-- C7 witness: key unset, body present with a valid action — still the
constant 500 response. -/
theorem C7_missing_credentials_witness :
    handler ⟨none, none, some "alice", none⟩ wPubOk reqPub
      = (some ⟨500, errEnv "MQTT credentials are not configured on the server."⟩, []) :=
  (C7_missing_credentials ⟨none, none, some "alice", none⟩ wPubOk reqPub rfl
    (Or.inr rfl)).1

/-- Helper: the fixed publish-rejection message is never equal to a
connection-failure message, whatever the underlying error text. -/
theorem publishMsg_ne_connectMsg (m : String) :
    "Failed to publish message." ≠ "MQTT connection failed: " ++ m := by
  intro h
  have h2 := congrArg String.data h
  rw [String.data_append] at h2
  simp at h2

/-- C1 counterexample: a POST request with both credentials configured
whose body is null/undefined (an empty POST body): line 28's destructuring
throws an uncaught TypeError outside the try-block, so the handler sends
no response at all — refuting "no request is ever left without a
response". -/
theorem C1_counterexample :
    envTruthy cfg1.ADAFRUIT_IO_USERNAME = true ∧
    envTruthy cfg1.ADAFRUIT_IO_KEY = true ∧
    (handler cfg1 wPubOk ⟨"POST", none⟩).1 = none :=
  ⟨rfl, rfl, rfl⟩

/-- C1 (amended): for every POST request with valid credentials whose body
is an object (not null/undefined), the handler always sends a response,
and any error raised during action dispatch is caught at the router
boundary, logged, and answered with HTTP 500 and an error envelope
carrying the error's message. -/
theorem C1_errors_caught_at_router (cfg : Config) (w : World) (req : Request) (b : ReqBody)
    (hm : req.method = "POST")
    (hu : envTruthy cfg.ADAFRUIT_IO_USERNAME = true)
    (hk : envTruthy cfg.ADAFRUIT_IO_KEY = true)
    (hb : req.body = some b) :
    (handler cfg w req).1.isSome = true ∧
    (∀ m effs, route cfg w b = (.error m, effs) →
      handler cfg w req
        = (some ⟨500, errEnv m⟩, effs ++ [.consoleError ["[PROXY_ERROR]", m]])) := by
  rcases hroute : route cfg w b with ⟨r, effs⟩
  cases r with
  | ok resp =>
      refine ⟨by simp [handler, hm, hu, hk, hb, hroute], ?_⟩
      intro m effs2 h
      exact absurd (congrArg Prod.fst h) (by simp)
  | error m =>
      refine ⟨by simp [handler, hm, hu, hk, hb, hroute], ?_⟩
      intro m2 effs2 h
      injection h with h1 h2
      injection h1 with h1
      subst h1
      subst h2
      simp [handler, hm, hu, hk, hb, hroute]

/-- C1 witness: a connection failure is caught and the request still gets
a response. -/
theorem C1_errors_caught_at_router_witness :
    (handler cfg1 wConnErr reqPub).1.isSome = true :=
  (C1_errors_caught_at_router cfg1 wConnErr reqPub ⟨some "send_motor_command", .str "ON"⟩
    rfl rfl rfl rfl).1

/-- C3: for every POST request with valid credentials and action
"send_motor_command": a successful publish yields 200 with a success
envelope; a publish rejection yields 500 with details "Failed to publish
message."; a connection failure yields 500 with details "MQTT connection
failed: " followed by the underlying message — and the two failure kinds
always carry distinct messages. -/
theorem C3_send_motor_command_responses (cfg : Config) (w : World) (req : Request)
    (b : ReqBody)
    (hm : req.method = "POST")
    (hu : envTruthy cfg.ADAFRUIT_IO_USERNAME = true)
    (hk : envTruthy cfg.ADAFRUIT_IO_KEY = true)
    (hb : req.body = some b)
    (ha : b.action = some "send_motor_command") :
    (w.mqtt = .connected none →
      (handler cfg w req).1 = some ⟨200, ⟨"success", some "Command published.", none⟩⟩) ∧
    (∀ e, w.mqtt = .connected (some e) →
      (handler cfg w req).1 = some ⟨500, errEnv "Failed to publish message."⟩) ∧
    (∀ m, w.mqtt = .connectError m →
      (handler cfg w req).1 = some ⟨500, errEnv ("MQTT connection failed: " ++ m)⟩) ∧
    (∀ m, "Failed to publish message." ≠ "MQTT connection failed: " ++ m) := by
  refine ⟨?_, ?_, ?_, publishMsg_ne_connectMsg⟩
  · intro hmq
    simp [handler, hm, hu, hk, hb, route, ha, handlePublish, hmq]
  · intro e hmq
    simp [handler, hm, hu, hk, hb, route, ha, handlePublish, hmq, errEnv]
  · intro m hmq
    simp [handler, hm, hu, hk, hb, route, ha, handlePublish, hmq, errEnv]

/-- C3 witness: a successful publish at a concrete request gets 200. -/
theorem C3_send_motor_command_responses_witness :
    (handler cfg1 wPubOk reqPub).1
      = some ⟨200, ⟨"success", some "Command published.", none⟩⟩ :=
  (C3_send_motor_command_responses cfg1 wPubOk reqPub
    ⟨some "send_motor_command", .str "ON"⟩ rfl rfl rfl rfl rfl).1 rfl

/-- C4: for every POST request with valid credentials and action
"get_device_status": an upstream 404 makes `handleGetStatus` resolve with
an empty result (null, not an error) and the handler answer 404 with the
explanatory envelope; any other non-success upstream status makes the
handler answer 500 with that status code included in the error message. -/
theorem C4_get_status_upstream_failures (cfg : Config) (w : World) (req : Request)
    (b : ReqBody)
    (hm : req.method = "POST")
    (hu : envTruthy cfg.ADAFRUIT_IO_USERNAME = true)
    (hk : envTruthy cfg.ADAFRUIT_IO_KEY = true)
    (hb : req.body = some b)
    (ha : b.action = some "get_device_status") :
    (w.rest.status = 404 →
      (handleGetStatus cfg w.rest w.parse (TOPIC_STATUS cfg)).1 = .ok .null ∧
      (handler cfg w req).1
        = some ⟨404, errEnv "Status not found. Device may be offline or has not sent data."⟩) ∧
    (¬(200 ≤ w.rest.status ∧ w.rest.status < 300) → w.rest.status ≠ 404 →
      (handler cfg w req).1
        = some ⟨500,
            errEnv ("Adafruit API request failed with status " ++ toString w.rest.status)⟩) := by
  constructor
  · intro h404
    constructor
    · simp [handleGetStatus, h404]
    · simp [handler, hm, hu, hk, hb, route, ha, handleGetStatus, h404, Js.truthy]
  · intro hok h404
    simp [handler, hm, hu, hk, hb, route, ha, handleGetStatus, hok, h404, errEnv]

/-- C4 witness: upstream 404 yields the 404 not-found response. -/
theorem C4_get_status_upstream_failures_witness :
    (handler cfg1 wRest404 reqGet).1
      = some ⟨404, errEnv "Status not found. Device may be offline or has not sent data."⟩ :=
  ((C4_get_status_upstream_failures cfg1 wRest404 reqGet
    ⟨some "get_device_status", .undef⟩ rfl rfl rfl rfl rfl).1 rfl).2

/-- C5: for every POST request with valid credentials and action
"get_device_status" whose upstream `value` is present, non-empty and not
valid JSON, the handler responds 500 with the fixed message — which
contains "malformed status data" and does not vary with the offending
value, so the raw value is never part of the response body — while the
raw value is logged server-side via the parse-error console call. -/
theorem C5_malformed_status_data (cfg : Config) (w : World) (req : Request)
    (b : ReqBody) (rb : RestBody) (v : String)
    (hm : req.method = "POST")
    (hu : envTruthy cfg.ADAFRUIT_IO_USERNAME = true)
    (hk : envTruthy cfg.ADAFRUIT_IO_KEY = true)
    (hb : req.body = some b)
    (ha : b.action = some "get_device_status")
    (hok : 200 ≤ w.rest.status ∧ w.rest.status < 300)
    (hbody : w.rest.body = some rb)
    (hv : rb.value = some v)
    (hne : v ≠ "")
    (hparse : w.parse v = none) :
    (handler cfg w req).1
      = some ⟨500, errEnv "Received malformed status data from the device."⟩ ∧
    (∃ pre post, "Received malformed status data from the device."
      = pre ++ "malformed status data" ++ post) ∧
    Effect.consoleError ["[JSON_PARSE_ERROR]", "Failed to parse device status:", v]
      ∈ (handler cfg w req).2 := by
  refine ⟨?_, ⟨"Received ", " from the device.", rfl⟩, ?_⟩
  · simp [handler, hm, hu, hk, hb, route, ha, handleGetStatus, hok, hbody, hv, hne,
      hparse, errEnv]
  · simp [handler, hm, hu, hk, hb, route, ha, handleGetStatus, hok, hbody, hv, hne,
      hparse]

/-- C5 witness: a concrete unparseable value gets the constant 500
response. -/
theorem C5_malformed_status_data_witness :
    (handler cfg1 wMalformed reqGet).1
      = some ⟨500, errEnv "Received malformed status data from the device."⟩ :=
  (C5_malformed_status_data cfg1 wMalformed reqGet ⟨some "get_device_status", .undef⟩
    ⟨some "oops", none⟩ "oops" rfl rfl rfl rfl rfl (by decide) rfl rfl (by decide) rfl).1

/-- C8: for every invocation of the publish path (valid credentials,
action "send_motor_command", connect event fired), the published message
is the JSON serialization of the command object extended with
`esp_power_on: true`, sent non-retained to the topic formed from the
configured username and the fixed feed name `motor_control`. -/
theorem C8_publish_payload_and_topic (cfg : Config) (w : World) (req : Request)
    (b : ReqBody) (uname : String) (pe : Option String)
    (hm : req.method = "POST")
    (hu : envTruthy cfg.ADAFRUIT_IO_USERNAME = true)
    (hk : envTruthy cfg.ADAFRUIT_IO_KEY = true)
    (hb : req.body = some b)
    (ha : b.action = some "send_motor_command")
    (huser : cfg.ADAFRUIT_IO_USERNAME = some uname)
    (hmq : w.mqtt = .connected pe) :
    Effect.mqttPublish (uname ++ "/feeds/motor_control")
      (Js.stringify (.obj [("command", b.payload), ("esp_power_on", .bool true)])) false
      ∈ (handler cfg w req).2 := by
  have hu2 : envTruthy (some uname) = true := by rw [← huser]; exact hu
  cases pe <;>
    simp [handler, hm, hu, hk, hb, route, ha, handlePublish, hmq, TOPIC_CONTROL,
      envStr, huser, hu2]

/-- C8 witness: the concrete "ON" command is serialized with the liveness
flag and published non-retained to alice's motor_control feed. -/
theorem C8_publish_payload_and_topic_witness :
    Effect.mqttPublish "alice/feeds/motor_control"
      (Js.stringify (.obj [("command", .str "ON"), ("esp_power_on", .bool true)])) false
      ∈ (handler cfg1 wPubOk reqPub).2 :=
  C8_publish_payload_and_topic cfg1 wPubOk reqPub ⟨some "send_motor_command", .str "ON"⟩
    "alice" none rfl rfl rfl rfl rfl rfl rfl

/-- C9: for every POST request with valid credentials and action
"get_device_status" whose upstream call succeeds, a `value` that is absent
or empty, and equally a `value` that parses to a falsy JSON value, makes
the handler respond with exactly the same 404 not-found envelope as when
the feed has no data. -/
theorem C9_falsy_value_not_found (cfg : Config) (w : World) (req : Request)
    (b : ReqBody)
    (hm : req.method = "POST")
    (hu : envTruthy cfg.ADAFRUIT_IO_USERNAME = true)
    (hk : envTruthy cfg.ADAFRUIT_IO_KEY = true)
    (hb : req.body = some b)
    (ha : b.action = some "get_device_status")
    (hok : 200 ≤ w.rest.status ∧ w.rest.status < 300) :
    (∀ rb, w.rest.body = some rb → (rb.value = none ∨ rb.value = some "") →
      (handler cfg w req).1
        = some ⟨404, errEnv "Status not found. Device may be offline or has not sent data."⟩) ∧
    (∀ rb v j, w.rest.body = some rb → rb.value = some v → v ≠ "" →
      w.parse v = some j → j.truthy = false →
      (handler cfg w req).1
        = some ⟨404, errEnv "Status not found. Device may be offline or has not sent data."⟩) := by
  constructor
  · rintro rb hbody (hv | hv) <;>
      simp [handler, hm, hu, hk, hb, route, ha, handleGetStatus, hok, hbody, hv, Js.truthy]
  · intro rb v j hbody hv hne hparse htr
    simp [handler, hm, hu, hk, hb, route, ha, handleGetStatus, hok, hbody, hv, hne,
      hparse, htr]

/-- C9 witness: a value of "0", parsing to the falsy number 0, is treated
as not-found. -/
theorem C9_falsy_value_not_found_witness :
    (handler cfg1 wFalsy reqGet).1
      = some ⟨404, errEnv "Status not found. Device may be offline or has not sent data."⟩ :=
  (C9_falsy_value_not_found cfg1 wFalsy reqGet ⟨some "get_device_status", .undef⟩
    rfl rfl rfl rfl rfl (by decide)).2
    ⟨some "0", none⟩ "0" (.num 0) rfl rfl (by decide) rfl rfl

/-- C10: for every successful get_device_status request, the `data` field
of the response is exactly the JSON parse of the upstream `value`, and the
upstream `created_at` timestamp is never merged in: replacing `created_at`
by any value leaves the response unchanged. -/
theorem C10_success_returns_parse_without_merge (cfg : Config) (w : World)
    (req : Request) (b : ReqBody) (rb : RestBody) (v : String) (j : Js)
    (hm : req.method = "POST")
    (hu : envTruthy cfg.ADAFRUIT_IO_USERNAME = true)
    (hk : envTruthy cfg.ADAFRUIT_IO_KEY = true)
    (hb : req.body = some b)
    (ha : b.action = some "get_device_status")
    (hok : 200 ≤ w.rest.status ∧ w.rest.status < 300)
    (hbody : w.rest.body = some rb)
    (hv : rb.value = some v)
    (hne : v ≠ "")
    (hparse : w.parse v = some j)
    (htr : j.truthy = true) :
    (handler cfg w req).1 = some ⟨200, ⟨"success", none, some j⟩⟩ ∧
    (∀ t, (handler cfg
        { w with rest := { w.rest with body := some { rb with created_at := t } } } req).1
      = some ⟨200, ⟨"success", none, some j⟩⟩) := by
  constructor
  · simp [handler, hm, hu, hk, hb, route, ha, handleGetStatus, hok, hbody, hv, hne,
      hparse, htr]
  · intro t
    simp [handler, hm, hu, hk, hb, route, ha, handleGetStatus, hok, hv, hne,
      hparse, htr]

/-- C10 witness: a parsed device object is returned as-is with a
`created_at` present upstream. -/
theorem C10_success_returns_parse_without_merge_witness :
    (handler cfg1 wGood reqGet).1
      = some ⟨200, ⟨"success", none, some (.obj [("temp", .num 21)])⟩⟩ :=
  (C10_success_returns_parse_without_merge cfg1 wGood reqGet
    ⟨some "get_device_status", .undef⟩ ⟨some "statusjson", some "2024-01-01T00:00:00Z"⟩
    "statusjson" (.obj [("temp", .num 21)])
    rfl rfl rfl rfl rfl (by decide) rfl rfl (by decide) rfl rfl).1

end MqttProxy
